import Mathlib

/-!
Shallow embedding of the payment microservice
(src/controllers/payment_controller.py and src/payments_api.py).

The controller's collaborators live outside the sources: the store commands
(create_payment, update_status_to_paid from commands.write_payment), the store
query (get_payment_by_id from queries.read_payment), the configured gateway
base URL (KRAKEND_URL from config), and the HTTP transport (requests.put).
They are passed to each embedded operation as explicit parameters, and each
operation additionally returns the trace of store operations and PUT requests
it issued, so that single-attempt / no-retry / call-order properties become
statements about those traces. Logging and tracing spans have no effect on
control flow or data and are not modelled, except that an f-string that
subscripts a dict is modelled faithfully as a possible KeyError.
-/

/-- Python runtime values exchanged with the store: integers, booleans,
strings and None. `numbers.Number` membership and `str` are modelled below.
(Floats are not needed by any operation modelled here: payload values are
passed through opaquely.) -/
inductive PyValue where
  | intV (n : Int)
  | boolV (b : Bool)
  | strV (s : String)
  | noneV
  deriving DecidableEq, Repr

/-- Python `isinstance(v, numbers.Number)`: ints and bools are Numbers
(bool subclasses int in Python); strings and None are not. -/
def PyValue.isNumber : PyValue → Bool
  | .intV _ => true
  | .boolV _ => true
  | .strV _ => false
  | .noneV => false

/-- Python `str(v)`. -/
def PyValue.pyStr : PyValue → String
  | .intV n => toString n
  | .boolV true => "True"
  | .boolV false => "False"
  | .strV s => s
  | .noneV => "None"

/-- Python exceptions distinguished by the embedding: a generic exception
carrying a message (anything a collaborator raises) and the KeyError raised
by subscripting a dict on a missing key. -/
inductive PyExc where
  | exc (msg : String)
  | keyError (key : String)
  deriving DecidableEq, Repr

/-- Python `str(e)` for an exception, as used by the API handlers when they
build an error body. -/
def PyExc.pyStr : PyExc → String
  | .exc m => m
  | .keyError k => "KeyError: " ++ k

/-- The store operations the controller invokes. `updateStatusToPaid` is the
only mutation of a payment's paid flag anywhere in the controller, and it only
sets the flag to true; no operation of this subsystem sets it back to false. -/
inductive StoreOp where
  | createPayment (order_id user_id total_amount : PyValue)
  | updateStatusToPaid (payment_id : Int)
  deriving DecidableEq, Repr

/-- The dict returned by the store's update_status_to_paid, as process_payment
reads it. Each field is optional because the code subscripts the dict
(update_result with the keys order_id, payment_id, is_paid) and a missing key
raises KeyError at the point of access. -/
structure UpdateDict where
  order_id : Option Int
  payment_id : Option Int
  is_paid : Option Bool
  deriving DecidableEq, Repr

/-- The credit card payload. The simulated charge only reads three keys with
dict.get, which never raises; unknown extra keys are irrelevant to control
flow and are not modelled. -/
structure CardData where
  cardNumber : Option String
  cardCode : Option String
  expirationDate : Option String
  deriving DecidableEq, Repr

/-- Embeds _process_credit_card_payment (payment_controller.py lines 63-67):
it logs the three card fields at debug level and does nothing else. It is a
total function producing the logged values: there is no validation and no
rejection path in the source. -/
def process_credit_card_payment (payment_data : CardData) : List (Option String) :=
  [payment_data.cardNumber, payment_data.cardCode, payment_data.expirationDate]

/-- One outbound PUT request as _notify_store_manager builds it: target URL,
the two JSON body fields, and the timeout passed to requests.put. -/
structure PutRequest where
  url : String
  body_order_id : Int
  body_is_paid : Bool
  timeout : Nat
  deriving DecidableEq, Repr

/-- What the transport reports for one HTTP request: a response status code,
or one of the exception classes the code catches (requests Timeout,
requests ConnectionError, or any other exception). -/
inductive HttpOutcome where
  | status (code : Nat)
  | timeoutExc
  | connectionError
  | otherExc (msg : String)
  deriving DecidableEq, Repr

/-- The request _notify_store_manager sends (payment_controller.py lines
75-90): URL is the gateway base followed by the fixed path /store-api/orders,
the body carries order_id and the constant is_paid true, the timeout is 5. -/
def mkNotifyRequest (krakend_url : String) (order_id : Int) : PutRequest :=
  { url := krakend_url ++ "/store-api/orders"
    body_order_id := order_id
    body_is_paid := true
    timeout := 5 }

/-- How _notify_store_manager turns the transport outcome into its boolean
(payment_controller.py lines 93-108): status in 200, 201, 204 gives true, any
other status gives false, and each except clause (Timeout, ConnectionError,
any other Exception) gives false. The try/except collapse is embedded as this
total function, so no exceptional result exists for the operation. -/
def notify_collapse : HttpOutcome → Bool
  | .status code => code == 200 || code == 201 || code == 204
  | .timeoutExc => false
  | .connectionError => false
  | .otherExc _ => false

/-- Embeds _notify_store_manager (payment_controller.py lines 69-108): it
builds one request, sends it once, and collapses the outcome to a boolean.
The first component is the list of requests issued during the call (always
exactly that one request: the source contains no loop and no retry). The
payment_id parameter is accepted, as in the source, but never used in the
request. -/
def notify_store_manager (krakend_url : String) (order_id : Int) (payment_id : Int)
    (transport : PutRequest → HttpOutcome) : List PutRequest × Bool :=
  let req := mkNotifyRequest krakend_url order_id
  ([req], notify_collapse (transport req))

/-- The success-shaped record process_payment returns (payment_controller.py
lines 54-59). -/
structure ProcessResult where
  order_id : Int
  payment_id : Int
  is_paid : Bool
  store_notified : Bool
  deriving DecidableEq, Repr

/-- One run of process_payment: its outcome (a result dict or a raised
exception) together with the store operations and PUT requests it issued. -/
structure ProcessRun where
  result : Except PyExc ProcessResult
  store_ops : List StoreOp
  puts : List PutRequest

/-- Embeds process_payment (payment_controller.py lines 39-61).
Order of effects, as in the source: the charge simulation (pure logging),
then update_status_to_paid (a raised exception propagates), then the log
line that subscripts update_result on order_id (KeyError propagates, before
any notification), then _notify_store_manager, then the result dict, whose
construction subscripts update_result on order_id, payment_id and is_paid
in that order (a KeyError there propagates after the notification was
already attempted). -/
def process_payment (krakend_url : String) (payment_id : Int) (credit_card_data : CardData)
    (update_status_to_paid : Int → Except PyExc UpdateDict)
    (transport : PutRequest → HttpOutcome) : ProcessRun :=
  let _card_log := process_credit_card_payment credit_card_data
  match update_status_to_paid payment_id with
  | .error e => ⟨.error e, [.updateStatusToPaid payment_id], []⟩
  | .ok upd =>
    match upd.order_id with
    | none => ⟨.error (.keyError "order_id"), [.updateStatusToPaid payment_id], []⟩
    | some oid =>
      let notif := notify_store_manager krakend_url oid payment_id transport
      match upd.payment_id, upd.is_paid with
      | none, _ =>
        ⟨.error (.keyError "payment_id"), [.updateStatusToPaid payment_id], notif.1⟩
      | some _, none =>
        ⟨.error (.keyError "is_paid"), [.updateStatusToPaid payment_id], notif.1⟩
      | some pid, some paid =>
        ⟨.ok ⟨oid, pid, paid, notif.2⟩, [.updateStatusToPaid payment_id], notif.1⟩

/-- The JSON body of a creation request. request.get_json() yields None or a
dict; each of the three keys the code reads is optional (dict.get yields None
for an absent key). -/
structure Payload where
  user_id : Option PyValue
  order_id : Option PyValue
  total_amount : Option PyValue
  deriving DecidableEq, Repr

/-- dict.get on one payload field: the stored value, or None when absent. -/
def dictGet (field : Option PyValue) : PyValue := field.getD .noneV

/-- request.get_json() or the empty dict (payment_controller.py line 29). -/
def payloadOf (request_json : Option Payload) : Payload :=
  request_json.getD ⟨none, none, none⟩

/-- What add_payment returns: a dict with key payment_id, or a dict with key
error holding a string. -/
inductive AddResult where
  | paymentId (v : PyValue)
  | errorMsg (s : String)
  deriving DecidableEq, Repr

/-- One run of add_payment: its outcome and the store operations it issued. -/
structure AddRun where
  result : Except PyExc AddResult
  store_ops : List StoreOp

/-- Embeds add_payment (payment_controller.py lines 26-37): read the three
fields with dict.get, call create_payment with them in the order
(order_id, user_id, total_amount), then discriminate on the runtime type of
the result: a numbers.Number becomes a payment_id dict, anything else is
turned into str(result) inside an error dict. A raised exception from
create_payment propagates. -/
def add_payment (request_json : Option Payload)
    (create_payment : PyValue → PyValue → PyValue → Except PyExc PyValue) : AddRun :=
  let payload := payloadOf request_json
  let user_id := dictGet payload.user_id
  let order_id := dictGet payload.order_id
  let total_amount := dictGet payload.total_amount
  match create_payment order_id user_id total_amount with
  | .error e => ⟨.error e, [.createPayment order_id user_id total_amount]⟩
  | .ok result =>
    if result.isNumber then
      ⟨.ok (.paymentId result), [.createPayment order_id user_id total_amount]⟩
    else
      ⟨.ok (.errorMsg result.pyStr), [.createPayment order_id user_id total_amount]⟩

/-- JSON response bodies produced by the API handlers modelled here. -/
inductive Body where
  | paymentId (v : PyValue)
  | errorMsg (s : String)
  | payment (v : PyValue)
  deriving DecidableEq, Repr

/-- Embeds post_add_payment (payments_api.py lines 57-67): whatever
add_payment returns without raising is serialised and sent with status 201;
a raised exception is caught and answered with status 400 and an error body.
Note the source pairs status 201 with the return of add_payment even when
that return is the error dict built from a non-numeric store result. -/
def post_add_payment (request_json : Option Payload)
    (create_payment : PyValue → PyValue → PyValue → Except PyExc PyValue) : Nat × Body :=
  match (add_payment request_json create_payment).result with
  | .ok (.paymentId v) => (201, .paymentId v)
  | .ok (.errorMsg s) => (201, .errorMsg s)
  | .error e => (400, .errorMsg e.pyStr)

/-- Embeds get_payment (payment_controller.py lines 23-24): pure passthrough
to the store query. -/
def get_payment (payment_id : Int)
    (get_payment_by_id : Int → Except PyExc PyValue) : Except PyExc PyValue :=
  get_payment_by_id payment_id

/-- Embeds get_payment_details (payments_api.py lines 81-89): a value
returned by get_payment is serialised with status 200; any raised exception
is caught and answered with status 404 and an error body. -/
def get_payment_details (payment_id : Int)
    (get_payment_by_id : Int → Except PyExc PyValue) : Nat × Body :=
  match get_payment payment_id get_payment_by_id with
  | .ok v => (200, .payment v)
  | .error e => (404, .errorMsg e.pyStr)

/-- Modelled from the spec: the store query get_payment_by_id (module
queries.read_payment) is not under src. Per the collaborator contract, get of
an id yields the record or not-found, and per the testable properties a
non-existent id reaches the 404 error path of the handler, so not-found
surfaces as a raised fault that the handler catches. The store content is an
abstract partial map db. -/
def spec_get_payment_by_id (db : Int → Option PyValue) (payment_id : Int) :
    Except PyExc PyValue :=
  match db payment_id with
  | some rec => .ok rec
  | none => .error (.exc "Payment not found")

/-- Claim C1: whenever the store update succeeds — returns, without raising, a
record carrying order_id, payment_id and is_paid, as the store contract
promises on success — process_payment returns normally with exactly that
record extended by store_notified, where is_paid is the value the store
reported and store_notified is the boolean of notify_store_manager; in
particular any failing transport outcome (a status outside 200, 201, 204, a
timeout, a connection error, or any other fault) yields the same normal
return with store_notified false and the same is_paid, never an exception
caused by the notification. -/
theorem process_payment_absorbs_notify_failure
    (krakend_url : String) (payment_id : Int) (card : CardData)
    (upd : Int → Except PyExc UpdateDict) (transport : PutRequest → HttpOutcome)
    (oid pid : Int) (paid : Bool)
    (hupd : upd payment_id = .ok ⟨some oid, some pid, some paid⟩) :
    (process_payment krakend_url payment_id card upd transport).result =
      .ok ⟨oid, pid, paid, (notify_store_manager krakend_url oid payment_id transport).2⟩ ∧
    (∀ code, transport (mkNotifyRequest krakend_url oid) = .status code →
      code ≠ 200 → code ≠ 201 → code ≠ 204 →
      (process_payment krakend_url payment_id card upd transport).result =
        .ok ⟨oid, pid, paid, false⟩) ∧
    ((transport (mkNotifyRequest krakend_url oid) = .timeoutExc ∨
      transport (mkNotifyRequest krakend_url oid) = .connectionError ∨
      ∃ m, transport (mkNotifyRequest krakend_url oid) = .otherExc m) →
      (process_payment krakend_url payment_id card upd transport).result =
        .ok ⟨oid, pid, paid, false⟩) := by
  refine ⟨?_, ?_, ?_⟩
  · simp [process_payment, hupd]
  · intro code hcode h200 h201 h204
    simp [process_payment, hupd, notify_store_manager, notify_collapse, hcode, h200, h201, h204]
  · rintro (h | h | ⟨m, h⟩) <;>
      simp [process_payment, hupd, notify_store_manager, notify_collapse, h]

/-- Witness for claim C1 at a concrete input: store update succeeds with
order 42, payment 7, paid true; the transport times out; the run still
returns normally with store_notified false. -/
theorem process_payment_absorbs_notify_failure_witness :
    (process_payment "http://gw" 7 ⟨none, none, none⟩
      (fun _ => .ok ⟨some 42, some 7, some true⟩) (fun _ => .timeoutExc)).result =
      .ok ⟨42, 7, true, false⟩ :=
  (process_payment_absorbs_notify_failure "http://gw" 7 ⟨none, none, none⟩
    (fun _ => .ok ⟨some 42, some 7, some true⟩) (fun _ => .timeoutExc)
    42 7 true rfl).2.2 (Or.inl rfl)

/-- Claim C2: for every transport outcome of the single attempt, the notifier
returns true exactly when the outcome is a response with status 200, 201 or
204; any other status, a timeout, a connection failure, or any other fault
yields false. The request trace has length one: a single attempt, no retry on
any outcome. No exception escapes: the operation's embedding is the total
collapse notify_collapse into a boolean, mirroring the except-all source. -/
theorem notify_boolean_collapse (krakend_url : String) (order_id payment_id : Int)
    (transport : PutRequest → HttpOutcome) :
    ((notify_store_manager krakend_url order_id payment_id transport).2 = true ↔
      (∃ code, transport (mkNotifyRequest krakend_url order_id) = .status code ∧
        (code = 200 ∨ code = 201 ∨ code = 204))) ∧
    (notify_store_manager krakend_url order_id payment_id transport).1.length = 1 := by
  refine ⟨?_, rfl⟩
  unfold notify_store_manager
  cases h : transport (mkNotifyRequest krakend_url order_id) <;>
    simp [notify_collapse, h] <;> tauto

/-- Claim C3: the charge simulation reads the card fields and cannot reject,
so the whole run of process_payment is literally the same function of the
environment for any two card payloads; and on an existing unpaid payment —
the store update succeeds and reports is_paid true — the run proceeds to the
store update (the update operation is issued) and returns normally with
is_paid true, whatever the card data (including the empty object). -/
theorem process_payment_ignores_card_data
    (krakend_url : String) (payment_id : Int) (card1 card2 : CardData)
    (upd : Int → Except PyExc UpdateDict) (transport : PutRequest → HttpOutcome)
    (oid pid : Int)
    (hupd : upd payment_id = .ok ⟨some oid, some pid, some true⟩) :
    process_payment krakend_url payment_id card1 upd transport =
      process_payment krakend_url payment_id card2 upd transport ∧
    (process_payment krakend_url payment_id card1 upd transport).store_ops =
      [StoreOp.updateStatusToPaid payment_id] ∧
    (process_payment krakend_url payment_id card1 upd transport).result =
      .ok ⟨oid, pid, true,
        (notify_store_manager krakend_url oid payment_id transport).2⟩ := by
  refine ⟨rfl, ?_, ?_⟩ <;> simp [process_payment, hupd]

/-- Witness for claim C3 at a concrete input: a filled-in card and the empty
card produce identical runs, and the result has is_paid true. -/
theorem process_payment_ignores_card_data_witness :
    process_payment "http://gw" 7 ⟨some "4111", some "123", some "2030-01"⟩
        (fun _ => .ok ⟨some 42, some 7, some true⟩) (fun _ => .status 204) =
      process_payment "http://gw" 7 ⟨none, none, none⟩
        (fun _ => .ok ⟨some 42, some 7, some true⟩) (fun _ => .status 204) ∧
    (process_payment "http://gw" 7 ⟨some "4111", some "123", some "2030-01"⟩
        (fun _ => .ok ⟨some 42, some 7, some true⟩) (fun _ => .status 204)).result =
      .ok ⟨42, 7, true, true⟩ := by
  have h := process_payment_ignores_card_data "http://gw" 7
    ⟨some "4111", some "123", some "2030-01"⟩ ⟨none, none, none⟩
    (fun _ => .ok ⟨some 42, some 7, some true⟩) (fun _ => .status 204) 42 7 rfl
  exact ⟨h.1, h.2.2⟩

/-- Claim C4: every run of process_payment — whatever the store, the
transport, the card data, or the payment's prior state (which the code never
consults: no read precedes the write) — issues exactly one store operation,
the unconditional updateStatusToPaid on the given id, which only sets the
paid flag to true; no operation setting it back to false exists in this
subsystem's trace. Because the trace is the same for every environment, a
second call on the same id (an already-paid payment) issues the very same
update again and, when the update succeeds, again attempts the notification:
there is no idempotency guard. -/
theorem process_payment_single_unconditional_update
    (krakend_url : String) (payment_id : Int) (card : CardData)
    (upd : Int → Except PyExc UpdateDict) (transport : PutRequest → HttpOutcome) :
    (process_payment krakend_url payment_id card upd transport).store_ops =
      [StoreOp.updateStatusToPaid payment_id] ∧
    (∀ d, upd payment_id = .ok d → ∀ oid, d.order_id = some oid →
      (process_payment krakend_url payment_id card upd transport).puts =
        [mkNotifyRequest krakend_url oid]) := by
  constructor
  · cases h : upd payment_id with
    | error e => simp [process_payment, h]
    | ok d =>
      cases hoid : d.order_id <;> cases hpid : d.payment_id <;> cases hp : d.is_paid <;>
        simp [process_payment, notify_store_manager, h, hoid, hpid, hp]
  · intro d hd oid hoid
    cases hpid : d.payment_id <;> cases hp : d.is_paid <;>
      simp [process_payment, notify_store_manager, hd, hoid, hpid, hp]

/-- Claim C5: when the store's create returns a value without raising,
add_payment answers with a payment_id dict exactly when that value is a
numbers.Number, and otherwise surfaces the whole value through str inside an
error dict; nothing but the runtime type of the store's result discriminates
success from failure. -/
theorem add_payment_type_discriminates
    (request_json : Option Payload)
    (create_payment : PyValue → PyValue → PyValue → Except PyExc PyValue)
    (v : PyValue)
    (hc : create_payment (dictGet (payloadOf request_json).order_id)
        (dictGet (payloadOf request_json).user_id)
        (dictGet (payloadOf request_json).total_amount) = .ok v) :
    ((add_payment request_json create_payment).result = .ok (.paymentId v) ↔
      v.isNumber = true) ∧
    (v.isNumber = false →
      (add_payment request_json create_payment).result = .ok (.errorMsg v.pyStr)) := by
  constructor
  · cases hn : v.isNumber <;> simp [add_payment, hc, hn]
  · intro hn
    simp [add_payment, hc, hn]

/-- Witness for claim C5 at a concrete input: an empty request body and a
store returning the numeric id 5 yield the payment_id result. -/
theorem add_payment_type_discriminates_witness :
    (add_payment none (fun _ _ _ => .ok (.intV 5))).result =
      .ok (.paymentId (.intV 5)) :=
  (add_payment_type_discriminates none (fun _ _ _ => .ok (.intV 5))
    (.intV 5) rfl).1.mpr rfl

/-- Claim C6: the request trace of every notification attempt, for every
transport outcome, is exactly one PUT request whose URL is the gateway base
followed by the fixed path /store-api/orders, whose body carries the order id
and the constant is_paid true, and whose timeout is 5; no second request is
ever issued, so no failure is retried. -/
theorem notify_single_put_fixed_request (krakend_url : String)
    (order_id payment_id : Int) (transport : PutRequest → HttpOutcome) :
    (notify_store_manager krakend_url order_id payment_id transport).1 =
      [{ url := krakend_url ++ "/store-api/orders"
         body_order_id := order_id
         body_is_paid := true
         timeout := 5 }] := rfl

/-- Claim C7 counterexample: with a store whose create returns the
non-numeric value "boom" (a creation failure under the subsystem's own
type-based discrimination, surfaced as an error body), the handler for POST
to the payments route answers status 201 with that error body — a failure of
the creation reported with the success status code, contradicting the claim
that every failure is answered with 400. -/
theorem post_add_payment_201_error_body :
    post_add_payment none (fun _ _ _ => .ok (.strV "boom")) =
      (201, .errorMsg "boom") := rfl

/-- Claim C7 as amended: the handler answers 201 with a payment_id body when
the store's create returns a numeric id, and 400 with an error body when the
creation raises an exception; but when the store's create returns a
non-numeric value without raising, the handler answers 201 with an error
body, so that creation failure is reported with the success status code. -/
theorem post_add_payment_status_mapping
    (request_json : Option Payload)
    (create_payment : PyValue → PyValue → PyValue → Except PyExc PyValue) :
    (∀ v, create_payment (dictGet (payloadOf request_json).order_id)
        (dictGet (payloadOf request_json).user_id)
        (dictGet (payloadOf request_json).total_amount) = .ok v →
      v.isNumber = true →
      post_add_payment request_json create_payment = (201, .paymentId v)) ∧
    (∀ v, create_payment (dictGet (payloadOf request_json).order_id)
        (dictGet (payloadOf request_json).user_id)
        (dictGet (payloadOf request_json).total_amount) = .ok v →
      v.isNumber = false →
      post_add_payment request_json create_payment = (201, .errorMsg v.pyStr)) ∧
    (∀ e, create_payment (dictGet (payloadOf request_json).order_id)
        (dictGet (payloadOf request_json).user_id)
        (dictGet (payloadOf request_json).total_amount) = .error e →
      post_add_payment request_json create_payment = (400, .errorMsg e.pyStr)) := by
  refine ⟨fun v hv hn => ?_, fun v hv hn => ?_, fun e he => ?_⟩ <;>
    simp [post_add_payment, add_payment, *]

/-- Claim C8: with the spec-modelled store query, a non-existent id raises
not-found, the handler catches it and answers 404 with an error body, and an
existing id is answered 200 with the payment value; moreover for every store
query whatsoever the handler's status is 200 or 404 — a raised fault never
escapes as a 500. -/
theorem get_payment_details_status_contract
    (db : Int → Option PyValue) (payment_id : Int)
    (get_by : Int → Except PyExc PyValue) :
    (db payment_id = none →
      get_payment_details payment_id (spec_get_payment_by_id db) =
        (404, .errorMsg "Payment not found")) ∧
    (∀ v, db payment_id = some v →
      get_payment_details payment_id (spec_get_payment_by_id db) = (200, .payment v)) ∧
    ((get_payment_details payment_id get_by).1 = 200 ∨
      (get_payment_details payment_id get_by).1 = 404) := by
  refine ⟨fun h => ?_, fun v h => ?_, ?_⟩
  · simp [get_payment_details, get_payment, spec_get_payment_by_id, h, PyExc.pyStr]
  · simp [get_payment_details, get_payment, spec_get_payment_by_id, h]
  · cases h : get_by payment_id <;> simp [get_payment_details, get_payment, h]

/-- Claim C9: when the store update raises, process_payment propagates that
exception, and when the update returns a record lacking the order_id key, the
subscript in the log line raises KeyError; in both cases the PUT trace is
empty — no notification is attempted — while a notification request does get
issued once the update has succeeded with an order_id. Store failures, unlike
notifier failures, propagate to the caller. -/
theorem process_payment_store_failure_propagates
    (krakend_url : String) (payment_id : Int) (card : CardData)
    (upd : Int → Except PyExc UpdateDict) (transport : PutRequest → HttpOutcome) :
    (∀ e, upd payment_id = .error e →
      process_payment krakend_url payment_id card upd transport =
        ⟨.error e, [.updateStatusToPaid payment_id], []⟩) ∧
    (∀ d, upd payment_id = .ok d → d.order_id = none →
      process_payment krakend_url payment_id card upd transport =
        ⟨.error (.keyError "order_id"), [.updateStatusToPaid payment_id], []⟩) := by
  constructor
  · intro e he
    simp [process_payment, he]
  · intro d hd hoid
    simp [process_payment, hd, hoid]

/-- Claim C10: add_payment validates nothing: for every request body —
including None and bodies missing any of user_id, order_id, total_amount —
the store's create is called exactly once with the three dict.get values
(each absent field read as None, dictGet of none being the None value) passed
unchanged, and add_payment itself rejects nothing: its outcome is a raised
exception exactly when create raised one. -/
theorem add_payment_no_validation
    (request_json : Option Payload)
    (create_payment : PyValue → PyValue → PyValue → Except PyExc PyValue) :
    (add_payment request_json create_payment).store_ops =
      [StoreOp.createPayment (dictGet (payloadOf request_json).order_id)
        (dictGet (payloadOf request_json).user_id)
        (dictGet (payloadOf request_json).total_amount)] ∧
    dictGet none = PyValue.noneV ∧
    (∀ e, (add_payment request_json create_payment).result = .error e ↔
      create_payment (dictGet (payloadOf request_json).order_id)
        (dictGet (payloadOf request_json).user_id)
        (dictGet (payloadOf request_json).total_amount) = .error e) := by
  refine ⟨?_, rfl, fun e => ?_⟩
  · cases h : create_payment (dictGet (payloadOf request_json).order_id)
        (dictGet (payloadOf request_json).user_id)
        (dictGet (payloadOf request_json).total_amount) with
    | error e => simp [add_payment, h]
    | ok v => cases hn : v.isNumber <;> simp [add_payment, h, hn]
  · cases h : create_payment (dictGet (payloadOf request_json).order_id)
        (dictGet (payloadOf request_json).user_id)
        (dictGet (payloadOf request_json).total_amount) with
    | error e2 => simp [add_payment, h]
    | ok v => cases hn : v.isNumber <;> simp [add_payment, h, hn]
